import Mathlib

/-!
Verification of the fleet-state change-notification and fan-out pipeline of
`nucypher/cli/moe.py` (the `MonitoringTracker` / `Moe` monitor character and
the websocket wiring in the `moe` CLI command).

The Python overrides are embedded shallowly: the base classes
(`FleetStateTracker`, `Character`) are not part of the visible source, so the
base methods' return values are passed to the embedded overrides as inputs,
constrained only by the spec's contract for them.  Every `hey_joe.send(...)`
call is modelled by appending a `WireMessage` to an event list that each
operation returns alongside its result, in publish order.
-/

/-- A known peer record.  The embedded code only reads
`checksum_public_address`; the remaining attributes follow the spec's data
model for `NodeRecord` (network endpoint, last-seen timestamp, staking
metadata, protocol version). -/
structure NodeRecord where
  checksum_public_address : String
  host : String
  port : Nat
  last_seen : Nat
  minimum_stake : Nat
  federated : Bool
  version : Nat
deriving DecidableEq, Repr

/-- A computed fleet state, per the spec's data model: a timestamp and a
serializable summary (the checksum travels alongside it in the
`(checksum, state)` pair returned by `record_fleet_state`). -/
structure FleetState where
  timestamp : Nat
  population : Nat
deriving DecidableEq, Repr

/-- A value carried in a wire-message payload.  `nodeDetails n` stands for
the abridged detail object of node `n`, `stateDetails s` for the abridged
detail object of state `s`, and `addr a` for a bare checksum-address
string. -/
inductive WireValue where
  | nodeDetails : NodeRecord → WireValue
  | stateDetails : FleetState → WireValue
  | addr : String → WireValue
deriving DecidableEq, Repr

/-- Whether a wire value is an abridged detail object (as opposed to a bare
address string). -/
def WireValue.isDetail : WireValue → Bool
  | .nodeDetails _ => true
  | .stateDetails _ => true
  | .addr _ => false

/-- A server-to-client message of the outbound event feed: the two-element
`[topic, payload]` array, with the payload a key-value mapping.  This models
both `hey_joe.send(payload, topic)` and the `json.dumps([topic, payload])`
snapshot messages. -/
structure WireMessage where
  topic : String
  payload : List (String × WireValue)
deriving DecidableEq, Repr

/-- `payload` maps keys to abridged detail objects only. -/
def detailMapping (p : List (String × WireValue)) : Bool :=
  p.all fun kv => kv.2.isDetail

/-- Modelled from the spec: `FleetStateTracker.abridged_state_details` (not
under src/) produces the reduced, serialization-friendly view of a fleet
state; represented symbolically. -/
def MonitoringTracker.abridged_state_details (s : FleetState) : WireValue :=
  WireValue.stateDetails s

/-- Modelled from the spec: `FleetStateTracker.abridged_node_details` (not
under src/) produces the reduced, serialization-friendly view of a node
record; represented symbolically. -/
def MonitoringTracker.abridged_node_details (n : NodeRecord) : WireValue :=
  WireValue.nodeDetails n

/-- Embedding of `MonitoringTracker.record_fleet_state` (moe.py lines 23-28).
The base `FleetStateTracker.record_fleet_state` is not under src/; per the
spec it returns the new `(checksum, state)` pair when the checksum changed
and nothing otherwise, so its result is the input `base` here.  Returns the
value passed back to the caller together with the messages published. -/
def MonitoringTracker.record_fleet_state (base : Option (String × FleetState)) :
    Option (String × FleetState) × List WireMessage :=
  match base with
  | some (checksum, new_state) =>
      (some (checksum, new_state),
       [⟨"states", [(checksum, MonitoringTracker.abridged_state_details new_state)]⟩])
  | none => (none, [])

/-- Embedding of `Moe.remember_node` (moe.py lines 41-47).  The base
`Character.remember_node` is not under src/; per the spec it returns the
record when newly inserted and nothing on an update of an existing record,
so its result is the input `base` here. -/
def Moe.remember_node (base : Option NodeRecord) :
    Option NodeRecord × List WireMessage :=
  match base with
  | some new_node =>
      (some new_node,
       [⟨"nodes", [(new_node.checksum_public_address,
                    MonitoringTracker.abridged_node_details new_node)]⟩])
  | none => (none, [])

/-- State owned by the learning machinery: the current-teacher pointer. -/
structure MoeSt where
  teacherPtr : Option NodeRecord
deriving DecidableEq, Repr

/-- Modelled from the spec: `current_teacher_node` (not under src/) maintains
the current-teacher pointer; with `cycle = false` it does not force-advance
the pointer, with `cycle = true` it advances it by the rotation `policy`.
Returns the queried teacher and the successor state. -/
def current_teacher_node (policy : MoeSt → MoeSt) (s : MoeSt) (cycle : Bool) :
    Option NodeRecord × MoeSt :=
  if cycle then ((policy s).teacherPtr, policy s) else (s.teacherPtr, s)

/-- Modelled from the spec: the base learning round merges each record
announced by the teacher into the tracker via `remember_node` — in Moe, the
override `Moe.remember_node` — publishing one "nodes" event per newly
inserted record.  `ann` lists the announced records with a flag telling
whether the base `remember_node` treats each as newly inserted.  Returns the
published events in order. -/
def base_learn_events : List (NodeRecord × Bool) → List WireMessage
  | [] => []
  | (r, isNew) :: rest =>
      (Moe.remember_node (if isNew then some r else none)).2 ++ base_learn_events rest

/-- Modelled from the spec: the newly-learned records collected by the base
learning round, in announcement order. -/
def base_learn_new : List (NodeRecord × Bool) → List NodeRecord
  | [] => []
  | (r, isNew) :: rest => (if isNew then [r] else []) ++ base_learn_new rest

/-- Modelled from the spec: the base `Character.learn_from_teacher_node`
(not under src/) queries the current teacher, merges each announced record
via `remember_node`, returns the set of newly-learned records, and rotates
the current-teacher pointer by the (abstract) rotation policy `rotate`. -/
def base_learn (rotate : MoeSt → MoeSt) (ann : List (NodeRecord × Bool)) (s : MoeSt) :
    List NodeRecord × MoeSt × List WireMessage :=
  (base_learn_new ann, rotate s, base_learn_events ann)

/-- Embedding of `Moe.learn_from_teacher_node` (moe.py lines 49-55), line by
line: query the teacher with `cycle=False`; run the base learning call;
publish the teacher's abridged details on "nodes"; query the (possibly
rotated) teacher again with `cycle=False`; publish its identity on
"teachers"; return the base call's newly-learned nodes.  Accessing an absent
teacher's `checksum_public_address` raises `AttributeError` in Python,
modelled by `Except.error`; messages already published before the error are
kept in the event list. -/
def Moe.learn_from_teacher_node (policy rotate : MoeSt → MoeSt)
    (ann : List (NodeRecord × Bool)) (s : MoeSt) :
    Except String (List NodeRecord) × MoeSt × List WireMessage :=
  let q1 := current_teacher_node policy s false
  let b := base_learn rotate ann q1.2
  match q1.1 with
  | none => (Except.error "AttributeError", b.2.1, b.2.2)
  | some teacher =>
    let reannounce : WireMessage :=
      ⟨"nodes", [(teacher.checksum_public_address,
                  MonitoringTracker.abridged_node_details teacher)]⟩
    let q2 := current_teacher_node policy b.2.1 false
    match q2.1 with
    | none => (Except.error "AttributeError", q2.2, b.2.2 ++ [reannounce])
    | some new_teacher =>
      (Except.ok b.1, q2.2,
       b.2.2 ++ [reannounce,
                 ⟨"teachers", [("current_teacher",
                                WireValue.addr new_teacher.checksum_public_address)]⟩])

/-- C1: a "states" message is published by `MonitoringTracker.record_fleet_state`
exactly when the base returns a new `(checksum, state)` pair, and that single
message maps the new checksum to the abridged state details; when the base
returns nothing, nothing is published, and so a "states" subscriber receives
exactly one message per distinct checksum transition and none for no-op
mutations. -/
theorem record_fleet_state_states_iff (base : Option (String × FleetState)) :
    MonitoringTracker.record_fleet_state base =
      (base,
       match base with
       | some (c, st) => [⟨"states", [(c, MonitoringTracker.abridged_state_details st)]⟩]
       | none => []) := by
  cases base with
  | none => rfl
  | some p => cases p; rfl

/-- C2: under the spec's contract that the base `remember_node` returns the
record on first insertion and nothing on a repeated identical insertion,
calling `Moe.remember_node` twice with record `r` publishes exactly one
"nodes" event, keyed by `r`'s checksum public address; the second call
publishes nothing. -/
theorem remember_node_idempotent_events (r : NodeRecord) :
    (Moe.remember_node (some r)).2 ++ (Moe.remember_node (none : Option NodeRecord)).2 =
      [⟨"nodes", [(r.checksum_public_address,
                   MonitoringTracker.abridged_node_details r)]⟩] ∧
    (Moe.remember_node (none : Option NodeRecord)).2 = [] := by
  exact ⟨rfl, rfl⟩

/-- C8: the monitoring overrides are pure observers of return values —
`MonitoringTracker.record_fleet_state` returns exactly the base result, and
`Moe.remember_node` returns exactly the base result; only the publish side
effect is added. -/
theorem overrides_preserve_base_results (b : Option (String × FleetState))
    (r : Option NodeRecord) :
    (MonitoringTracker.record_fleet_state b).1 = b ∧
    (Moe.remember_node r).1 = r := by
  constructor
  · cases b with
    | none => rfl
    | some p => cases p; rfl
  · cases r with
    | none => rfl
    | some n => rfl

/-- A concrete node used by witnesses. -/
def sampleNode : NodeRecord :=
  { checksum_public_address := "0xabc", host := "localhost", port := 9151,
    last_seen := 0, minimum_stake := 0, federated := true, version := 1 }

/-- A second concrete node used by witnesses. -/
def sampleNode2 : NodeRecord :=
  { checksum_public_address := "0xdef", host := "localhost", port := 9152,
    last_seen := 0, minimum_stake := 0, federated := true, version := 1 }

/-- The per-new-node "nodes" events of the base learning call are, in order,
one event per newly-learned record, each mapping the record's checksum
address to its abridged details. -/
theorem base_learn_events_eq_map (ann : List (NodeRecord × Bool)) :
    base_learn_events ann = (base_learn_new ann).map fun r =>
      ⟨"nodes", [(r.checksum_public_address,
                  MonitoringTracker.abridged_node_details r)]⟩ := by
  induction ann with
  | nil => rfl
  | cons p rest ih =>
    obtain ⟨r, isNew⟩ := p
    cases isNew <;> simp [base_learn_events, base_learn_new, Moe.remember_node, ih]

/-- C3: when a teacher is current before and after the base call, the side
effects of `Moe.learn_from_teacher_node` occur in order — first the
per-new-node "nodes" events of the base learning call, then one "nodes"
event with the current teacher's abridged details, then one "teachers" event
with the post-round teacher's identity — and the call returns the
newly-learned nodes produced by the base learning call. -/
theorem learn_from_teacher_node_order (policy rotate : MoeSt → MoeSt)
    (ann : List (NodeRecord × Bool)) (s : MoeSt) (t nt : NodeRecord)
    (h1 : s.teacherPtr = some t) (h2 : (rotate s).teacherPtr = some nt) :
    Moe.learn_from_teacher_node policy rotate ann s =
      (Except.ok (base_learn_new ann), rotate s,
       base_learn_events ann ++
         [⟨"nodes", [(t.checksum_public_address,
                      MonitoringTracker.abridged_node_details t)]⟩,
          ⟨"teachers", [("current_teacher",
                         WireValue.addr nt.checksum_public_address)]⟩]) ∧
    base_learn_events ann = (base_learn_new ann).map fun r =>
      ⟨"nodes", [(r.checksum_public_address,
                  MonitoringTracker.abridged_node_details r)]⟩ := by
  refine ⟨?_, base_learn_events_eq_map ann⟩
  simp [Moe.learn_from_teacher_node, current_teacher_node, base_learn, h1, h2]

/-- C3 witness: the order theorem applied at a concrete round with one new
node and teacher `sampleNode`. -/
theorem learn_from_teacher_node_order_witness :
    Moe.learn_from_teacher_node id id [(sampleNode2, true)] ⟨some sampleNode⟩ =
      (Except.ok (base_learn_new [(sampleNode2, true)]),
       id (⟨some sampleNode⟩ : MoeSt),
       base_learn_events [(sampleNode2, true)] ++
         [⟨"nodes", [(sampleNode.checksum_public_address,
                      MonitoringTracker.abridged_node_details sampleNode)]⟩,
          ⟨"teachers", [("current_teacher",
                         WireValue.addr sampleNode.checksum_public_address)]⟩]) :=
  (learn_from_teacher_node_order id id [(sampleNode2, true)] ⟨some sampleNode⟩
    sampleNode sampleNode rfl rfl).1

/-- C4: whenever a teacher is current, every call to
`Moe.learn_from_teacher_node` publishes a "nodes" event carrying the
teacher's abridged details, regardless of the rotation policy, of the
announced records (in particular with no new nodes at all), and of whether
the post-round teacher query succeeds. -/
theorem teacher_always_reannounced (policy rotate : MoeSt → MoeSt)
    (ann : List (NodeRecord × Bool)) (s : MoeSt) (t : NodeRecord)
    (h : s.teacherPtr = some t) :
    (⟨"nodes", [(t.checksum_public_address,
                 MonitoringTracker.abridged_node_details t)]⟩ : WireMessage)
      ∈ (Moe.learn_from_teacher_node policy rotate ann s).2.2 := by
  cases hrt : (rotate s).teacherPtr with
  | none =>
      simp [Moe.learn_from_teacher_node, current_teacher_node, base_learn, h, hrt]
  | some nt =>
      simp [Moe.learn_from_teacher_node, current_teacher_node, base_learn, h, hrt]

/-- C4 witness: the re-announcement theorem applied at a concrete empty
round (no announced records) with teacher `sampleNode`. -/
theorem teacher_always_reannounced_witness :
    (⟨"nodes", [(sampleNode.checksum_public_address,
                 MonitoringTracker.abridged_node_details sampleNode)]⟩ : WireMessage)
      ∈ (Moe.learn_from_teacher_node id id [] ⟨some sampleNode⟩).2.2 :=
  teacher_always_reannounced id id [] ⟨some sampleNode⟩ sampleNode rfl

/-- C7: the teacher queries of `Moe.learn_from_teacher_node` use
`cycle = false` and therefore never force-advance the current-teacher
pointer — a `cycle = false` query returns the pointer and leaves the state
untouched — so the state after the whole round is exactly the one produced
by the base learning call's rotation, and the "teachers" event carries the
identity of the teacher current after that rotation (which differs from the
pre-round teacher only if the base learning rotated the pointer). -/
theorem teacher_query_never_force_advances (policy rotate : MoeSt → MoeSt)
    (ann : List (NodeRecord × Bool)) (s : MoeSt) :
    (current_teacher_node policy s false).2 = s ∧
    (current_teacher_node policy s false).1 = s.teacherPtr ∧
    ∀ t nt, s.teacherPtr = some t → (rotate s).teacherPtr = some nt →
      (Moe.learn_from_teacher_node policy rotate ann s).2.1 = rotate s ∧
      (⟨"teachers", [("current_teacher",
                      WireValue.addr nt.checksum_public_address)]⟩ : WireMessage)
        ∈ (Moe.learn_from_teacher_node policy rotate ann s).2.2 := by
  refine ⟨rfl, rfl, fun t nt h1 h2 => ?_⟩
  simp [Moe.learn_from_teacher_node, current_teacher_node, base_learn, h1, h2]

/-- C7 witness: the no-force-advance theorem applied at a concrete state
with teacher `sampleNode` and the identity rotation. -/
theorem teacher_query_never_force_advances_witness :
    (Moe.learn_from_teacher_node id id [] ⟨some sampleNode⟩).2.1 =
      id (⟨some sampleNode⟩ : MoeSt) ∧
    (⟨"teachers", [("current_teacher",
                    WireValue.addr sampleNode.checksum_public_address)]⟩ : WireMessage)
      ∈ (Moe.learn_from_teacher_node id id [] ⟨some sampleNode⟩).2.2 :=
  (teacher_query_never_force_advances id id [] ⟨some sampleNode⟩).2.2
    sampleNode sampleNode rfl rfl

/-- C9: `Moe.learn_from_teacher_node` implicitly requires a current teacher:
when the pre-round teacher query yields nothing, the round fails with an
error raised while building the teacher re-announcement (attribute access on
the absent teacher) rather than completing as an empty round — the events
published are only those of the base learning call, with no re-announcement
and no "teachers" event. -/
theorem learn_without_teacher_errors (policy rotate : MoeSt → MoeSt)
    (ann : List (NodeRecord × Bool)) (s : MoeSt) (h : s.teacherPtr = none) :
    (Moe.learn_from_teacher_node policy rotate ann s).1 =
      Except.error "AttributeError" ∧
    (Moe.learn_from_teacher_node policy rotate ann s).2.2 =
      base_learn_events ann := by
  constructor <;>
    simp [Moe.learn_from_teacher_node, current_teacher_node, base_learn, h]

/-- C9 witness: the missing-teacher theorem applied at the concrete state
with no current teacher and one announced record. -/
theorem learn_without_teacher_errors_witness :
    (Moe.learn_from_teacher_node id id [(sampleNode2, true)] ⟨none⟩).1 =
      Except.error "AttributeError" ∧
    (Moe.learn_from_teacher_node id id [(sampleNode2, true)] ⟨none⟩).2.2 =
      base_learn_events [(sampleNode2, true)] :=
  learn_without_teacher_errors id id [(sampleNode2, true)] ⟨none⟩ rfl

/-- Modelled from the spec: the monitor's current snapshot as read by the
late-join handlers — `known_nodes.abridged_states_dict()` draws from the
recorded fleet states (keyed by checksum) and
`known_nodes.abridged_nodes_dict()` from the known nodes (keyed by checksum
address); neither accessor is under src/. -/
structure MonitorSnapshot where
  states : List (String × FleetState)
  nodes : List (String × NodeRecord)
deriving DecidableEq, Repr

/-- Modelled from the spec: `known_nodes.abridged_states_dict()` maps each
recorded state checksum to the state's abridged details. -/
def abridged_states_dict (m : MonitorSnapshot) : List (String × WireValue) :=
  m.states.map fun p => (p.1, MonitoringTracker.abridged_state_details p.2)

/-- Modelled from the spec: `known_nodes.abridged_nodes_dict()` maps each
known node's checksum address to the node's abridged details. -/
def abridged_nodes_dict (m : MonitorSnapshot) : List (String × WireValue) :=
  m.nodes.map fun p => (p.1, MonitoringTracker.abridged_node_details p.2)

/-- Embedding of `send_states` (moe.py lines 91-93): the late-join snapshot
message `["states", monitor.known_nodes.abridged_states_dict()]`. -/
def send_states (m : MonitorSnapshot) : WireMessage :=
  ⟨"states", abridged_states_dict m⟩

/-- Embedding of `send_nodes` (moe.py lines 95-97): the late-join snapshot
message `["nodes", monitor.known_nodes.abridged_nodes_dict()]`. -/
def send_nodes (m : MonitorSnapshot) : WireMessage :=
  ⟨"nodes", abridged_nodes_dict m⟩

/-- Modelled from the spec: the websocket service's registry of late-join
(full-snapshot) followup handlers, one per registered topic;
`hey_joe.WebSocketService` itself is not under src/. -/
structure WebSocketService where
  followups : List (String × (MonitorSnapshot → WireMessage))

/-- Modelled from the spec: `register_followup` associates a topic with a
full-snapshot handler for late-joining subscribers. -/
def register_followup (svc : WebSocketService) (topic : String)
    (handler : MonitorSnapshot → WireMessage) : WebSocketService :=
  ⟨svc.followups ++ [(topic, handler)]⟩

/-- Embedding of moe.py lines 99-101: the `moe` command registers followup
handlers for "states" (`send_states`) and "nodes" (`send_nodes`) and for no
other topic. -/
def moe_websocket_service : WebSocketService :=
  register_followup (register_followup ⟨[]⟩ "states" send_states) "nodes" send_nodes

/-- C10: the websocket service registers full-snapshot followup handlers for
exactly the topics "states" and "nodes"; in particular "teachers" has no
late-join snapshot handler. -/
theorem followup_topics_exactly_states_and_nodes :
    moe_websocket_service.followups.map Prod.fst = ["states", "nodes"] ∧
    "teachers" ∉ moe_websocket_service.followups.map Prod.fst := by
  refine ⟨rfl, ?_⟩
  intro h
  simp [moe_websocket_service, register_followup] at h

/-- Every snapshot-dict payload entry built from the states dict is an
abridged detail object. -/
theorem detailMapping_states_dict (m : MonitorSnapshot) :
    detailMapping (abridged_states_dict m) = true := by
  simp only [detailMapping, abridged_states_dict, List.all_eq_true]
  intro kv hkv
  obtain ⟨p, _, rfl⟩ := List.mem_map.mp hkv
  rfl

/-- Every snapshot-dict payload entry built from the nodes dict is an
abridged detail object. -/
theorem detailMapping_nodes_dict (m : MonitorSnapshot) :
    detailMapping (abridged_nodes_dict m) = true := by
  simp only [detailMapping, abridged_nodes_dict, List.all_eq_true]
  intro kv hkv
  obtain ⟨p, _, rfl⟩ := List.mem_map.mp hkv
  rfl

/-- Every event of the base learning call is a "nodes" event whose payload
maps an address to abridged node details. -/
theorem base_learn_events_shape (ann : List (NodeRecord × Bool)) (e : WireMessage)
    (h : e ∈ base_learn_events ann) :
    e.topic = "nodes" ∧ detailMapping e.payload = true := by
  rw [base_learn_events_eq_map] at h
  obtain ⟨r, _, rfl⟩ := List.mem_map.mp h
  exact ⟨rfl, rfl⟩

/-- Case analysis of the event list of `Moe.learn_from_teacher_node`. -/
theorem learn_events_cases (policy rotate : MoeSt → MoeSt)
    (ann : List (NodeRecord × Bool)) (s : MoeSt) :
    (Moe.learn_from_teacher_node policy rotate ann s).2.2 = base_learn_events ann ∨
    (∃ t : NodeRecord, (Moe.learn_from_teacher_node policy rotate ann s).2.2 =
        base_learn_events ann ++
          [⟨"nodes", [(t.checksum_public_address,
                       MonitoringTracker.abridged_node_details t)]⟩]) ∨
    (∃ t nt : NodeRecord, (Moe.learn_from_teacher_node policy rotate ann s).2.2 =
        base_learn_events ann ++
          [⟨"nodes", [(t.checksum_public_address,
                       MonitoringTracker.abridged_node_details t)]⟩,
           ⟨"teachers", [("current_teacher",
                          WireValue.addr nt.checksum_public_address)]⟩]) := by
  cases h1 : s.teacherPtr with
  | none =>
      left
      simp [Moe.learn_from_teacher_node, current_teacher_node, base_learn, h1]
  | some t =>
      cases h2 : (rotate s).teacherPtr with
      | none =>
          right; left
          exact ⟨t, by
            simp [Moe.learn_from_teacher_node, current_teacher_node, base_learn, h1, h2]⟩
      | some nt =>
          right; right
          exact ⟨t, nt, by
            simp [Moe.learn_from_teacher_node, current_teacher_node, base_learn, h1, h2]⟩

/-- A well-formed outbound event: a `[topic, payload]` pair with the topic
in the wire vocabulary; "nodes"/"states" payloads map keys to abridged
detail objects, while a "teachers" payload maps the fixed key
"current_teacher" to a bare checksum address. -/
def wireEventOk (e : WireMessage) : Prop :=
  e.topic ∈ (["nodes", "states", "teachers"] : List String) ∧
  (e.topic = "teachers" →
    ∃ a : String, e.payload = [("current_teacher", WireValue.addr a)]) ∧
  (e.topic ≠ "teachers" → detailMapping e.payload = true)

/-- A "nodes" or "states" event with a detail-object payload is a
well-formed outbound event. -/
theorem wireEventOk_of_detail (e : WireMessage)
    (ht : e.topic = "nodes" ∨ e.topic = "states")
    (hd : detailMapping e.payload = true) : wireEventOk e := by
  rcases ht with ht | ht <;>
    exact ⟨by simp [ht], fun habs => absurd habs (by simp [ht]), fun _ => hd⟩

/-- A "teachers" identity event is a well-formed outbound event. -/
theorem wireEventOk_teachers (a : String) :
    wireEventOk ⟨"teachers", [("current_teacher", WireValue.addr a)]⟩ :=
  ⟨by simp, fun _ => ⟨a, rfl⟩, fun habs => absurd rfl habs⟩

/-- A concrete snapshot used by witnesses. -/
def sampleSnapshot : MonitorSnapshot :=
  ⟨[("0xc1", ⟨100, 2⟩)], [("0xabc", sampleNode)]⟩

/-- C5 counterexample: the "teachers" message published by a concrete
learning round maps the fixed key "current_teacher" — not a node identity or
state checksum — to the teacher's bare checksum address, which is not an
abridged detail object; so the claim's payload shape does not hold for
"teachers" messages. -/
theorem teachers_payload_not_detail_mapping :
    (Moe.learn_from_teacher_node id id [] ⟨some sampleNode⟩).2.2 =
      [⟨"nodes", [("0xabc", WireValue.nodeDetails sampleNode)]⟩,
       ⟨"teachers", [("current_teacher", WireValue.addr "0xabc")]⟩] ∧
    detailMapping [("current_teacher", WireValue.addr "0xabc")] = false :=
  ⟨rfl, rfl⟩

/-- C5 (amended): every server-to-client message — the late-join snapshots
`send_states`/`send_nodes`, the incremental "states" and "nodes" messages,
and the "teachers" messages — is a two-element `[topic, payload]` pair with
topic among "nodes", "states", "teachers"; the "nodes" and "states" payloads
map a node identity or state checksum to an abridged detail object, while a
"teachers" payload maps the fixed key "current_teacher" to the current
teacher's bare checksum address, not an abridged detail object. -/
theorem wire_contract_shape (m : MonitorSnapshot)
    (base : Option (String × FleetState)) (r : Option NodeRecord)
    (policy rotate : MoeSt → MoeSt) (ann : List (NodeRecord × Bool)) (s : MoeSt) :
    ((send_states m).topic = "states" ∧ detailMapping (send_states m).payload = true) ∧
    ((send_nodes m).topic = "nodes" ∧ detailMapping (send_nodes m).payload = true) ∧
    (∀ e ∈ (MonitoringTracker.record_fleet_state base).2,
        e.topic = "states" ∧ detailMapping e.payload = true) ∧
    (∀ e ∈ (Moe.remember_node r).2,
        e.topic = "nodes" ∧ detailMapping e.payload = true) ∧
    (∀ e ∈ (Moe.learn_from_teacher_node policy rotate ann s).2.2, wireEventOk e) := by
  refine ⟨⟨rfl, detailMapping_states_dict m⟩, ⟨rfl, detailMapping_nodes_dict m⟩,
          ?_, ?_, ?_⟩
  · intro e he
    cases base with
    | none => simp [MonitoringTracker.record_fleet_state] at he
    | some p =>
        obtain ⟨c, st⟩ := p
        simp [MonitoringTracker.record_fleet_state] at he
        subst he
        exact ⟨rfl, rfl⟩
  · intro e he
    cases r with
    | none => simp [Moe.remember_node] at he
    | some n =>
        simp [Moe.remember_node] at he
        subst he
        exact ⟨rfl, rfl⟩
  · intro e he
    rcases learn_events_cases policy rotate ann s with hc | ⟨t, hc⟩ | ⟨t, nt, hc⟩
    · rw [hc] at he
      obtain ⟨ht, hd⟩ := base_learn_events_shape ann e he
      exact wireEventOk_of_detail e (Or.inl ht) hd
    · rw [hc] at he
      rcases List.mem_append.mp he with hb | hr
      · obtain ⟨ht, hd⟩ := base_learn_events_shape ann e hb
        exact wireEventOk_of_detail e (Or.inl ht) hd
      · rw [List.mem_singleton.mp hr]
        exact wireEventOk_of_detail _ (Or.inl rfl) rfl
    · rw [hc] at he
      rcases List.mem_append.mp he with hb | hr
      · obtain ⟨ht, hd⟩ := base_learn_events_shape ann e hb
        exact wireEventOk_of_detail e (Or.inl ht) hd
      · rcases List.mem_cons.mp hr with h1 | h1
        · rw [h1]
          exact wireEventOk_of_detail _ (Or.inl rfl) rfl
        · rw [List.mem_singleton.mp h1]
          exact wireEventOk_teachers nt.checksum_public_address

/-- C5 witness: the wire-contract theorem applied at a concrete snapshot and
a concrete learning round, discharging membership at the "teachers" event of
that round. -/
theorem wire_contract_shape_witness :
    wireEventOk ⟨"teachers", [("current_teacher", WireValue.addr "0xabc")]⟩ ∧
    (send_states sampleSnapshot).topic = "states" := by
  have h := wire_contract_shape sampleSnapshot none none id id [] ⟨some sampleNode⟩
  refine ⟨h.2.2.2.2 _ ?_, h.1.1⟩
  show (⟨"teachers", [("current_teacher", WireValue.addr "0xabc")]⟩ : WireMessage)
      ∈ (Moe.learn_from_teacher_node id id [] ⟨some sampleNode⟩).2.2
  simp [Moe.learn_from_teacher_node, current_teacher_node, base_learn,
        base_learn_events, sampleNode]

/-- Class constant of `Moe` (moe.py line 36): the short learning delay in
seconds. -/
def Moe._SHORT_LEARNING_DELAY : Rat := 1/2

/-- Class constant of `Moe` (moe.py line 37): the long learning delay in
seconds. -/
def Moe._LONG_LEARNING_DELAY : Rat := 30

/-- Class constant of `Moe` (moe.py line 38): the learning-round timeout in
seconds. -/
def Moe.LEARNING_TIMEOUT : Rat := 10

/-- Class constant of `Moe` (moe.py line 39): the number of consecutive
rounds without new nodes after which the loop slows down. -/
def Moe._ROUNDS_WITHOUT_NODES_AFTER_WHICH_TO_SLOW_DOWN : Nat := 25

/-- Modelled from the spec: the learning loop's back-off state (the loop
itself is not under src/) — the count of consecutive rounds that yielded
zero new nodes, and the current loop interval in seconds. -/
structure LoopState where
  emptyRounds : Nat
  interval : Rat
deriving DecidableEq, Repr

/-- Modelled from the spec: the loop starts at the short interval with no
empty rounds on record. -/
def initLoop : LoopState := ⟨0, Moe._SHORT_LEARNING_DELAY⟩

/-- Modelled from the spec: the effect of one learning round on the back-off
state.  A timed-out or unreachable round counts as zero new nodes; after the
configured number of consecutive empty rounds the interval backs off to the
long delay; a round learning at least one new node resets the counter and
the interval to the short delay. -/
def loopStep (newNodes : Nat) (st : LoopState) : LoopState :=
  if newNodes = 0 then
    if Moe._ROUNDS_WITHOUT_NODES_AFTER_WHICH_TO_SLOW_DOWN ≤ st.emptyRounds + 1 then
      ⟨st.emptyRounds + 1, Moe._LONG_LEARNING_DELAY⟩
    else ⟨st.emptyRounds + 1, st.interval⟩
  else ⟨0, Moe._SHORT_LEARNING_DELAY⟩

/-- The loop state after `n` consecutive empty rounds from the start. -/
def emptyRun : Nat → LoopState
  | 0 => initLoop
  | n + 1 => loopStep 0 (emptyRun n)

/-- C6 counterexample: with the code's empty-round threshold of 25, three
consecutive timed-out rounds leave the loop interval at the short value,
which differs from the long value — the interval does not reach the slow
value after 3 empty rounds as claimed. -/
theorem three_empty_rounds_do_not_slow_down :
    (emptyRun 3).interval = Moe._SHORT_LEARNING_DELAY ∧
    Moe._SHORT_LEARNING_DELAY ≠ Moe._LONG_LEARNING_DELAY := by
  refine ⟨rfl, ?_⟩
  simp [Moe._SHORT_LEARNING_DELAY, Moe._LONG_LEARNING_DELAY]
  norm_num

/-- C6 (amended): the learning loop starts at the short interval; with the
code's configuration the back-off threshold is 25 consecutive empty rounds,
not 3 — after 24 consecutive timed-out rounds the interval is still short,
after 25 it reaches the long value — and any subsequent round that returns
new nodes resets the interval to the short value; the configured constants
are a 0.5s short delay, a 30s long delay, a 10s round timeout, and an
empty-round threshold of 25. -/
theorem backoff_state_machine :
    initLoop.interval = Moe._SHORT_LEARNING_DELAY ∧
    (emptyRun 24).interval = Moe._SHORT_LEARNING_DELAY ∧
    (emptyRun 25).interval = Moe._LONG_LEARNING_DELAY ∧
    (loopStep 2 (emptyRun 25)).interval = Moe._SHORT_LEARNING_DELAY ∧
    (∀ st : LoopState, ∀ k : Nat,
       (loopStep (k + 1) st).interval = Moe._SHORT_LEARNING_DELAY) ∧
    Moe._SHORT_LEARNING_DELAY = 1/2 ∧ Moe._LONG_LEARNING_DELAY = 30 ∧
    Moe.LEARNING_TIMEOUT = 10 ∧
    Moe._ROUNDS_WITHOUT_NODES_AFTER_WHICH_TO_SLOW_DOWN = 25 :=
  ⟨rfl, rfl, rfl, rfl, fun _ _ => rfl, rfl, rfl, rfl, rfl⟩
